import Mathlib

/-!
Verification of the `wrs` immediate-mode 2D renderer.

Shallow embedding of the CPU-observable behavior of the repository:

* `QuadRenderer` / `FontRenderer` — the two batch accumulators
  (`src/main.rs`, `src/quad/renderer.rs`, `src/font/renderer.rs`).
  GPU buffers are modelled by `GBuffer`: the byte capacity, the element
  contents, the usage flags, and a generation counter that is bumped
  exactly when the source destroys and re-creates the `wgpu` buffer.
* `Camera.build_proj` — the orthographic projection
  (`src/camera.rs`, duplicated in `src/main.rs`).
* `create_monospace_atlas` — the glyph-atlas builder (`src/main.rs`).
  The external font library (`ab_glyph`) is modelled as an oracle
  `FontModel` giving, per character, the pixel bounding box of its
  outline (or `none` when the font cannot outline it); texture upload and
  pixel compositing are GPU/image side effects outside the data model.

`f32` values are embedded as `ℚ` (exact arithmetic; none of the verified
claims depends on rounding).  `u16` index arithmetic is embedded as `ℕ`
with explicit `% 65536` where the source casts/wraps.  A Rust `panic!`
(`unwrap` on `None`) is embedded as an explicit `panicked` result
constructor.
-/

/-- Flat-colored vertex (`Vertex` in `src/main.rs` / `src/quad/renderer.rs`):
position (x, y, z) and color (r, g, b), each a triple of `f32`,
24 bytes total. -/
structure Vertex where
  pos : ℚ × ℚ × ℚ
  color : ℚ × ℚ × ℚ
deriving DecidableEq

/-- Textured glyph vertex (`FontVertex`): position, color and normalized
atlas texture coordinates, 32 bytes total. -/
structure FontVertex where
  pos : ℚ × ℚ × ℚ
  color : ℚ × ℚ × ℚ
  texture_coords : ℚ × ℚ
deriving DecidableEq

/-- Buffer usage flags requested at creation (`wgpu::BufferUsages`). -/
structure UsageFlags where
  vertex : Bool
  index : Bool
  copy_dst : Bool
deriving DecidableEq

/-- Usage `VERTEX | COPY_DST`, requested when a vertex buffer is grown. -/
def vertexCopyDst : UsageFlags := ⟨true, false, true⟩

/-- Usage `INDEX | COPY_DST`, requested when an index buffer is grown. -/
def indexCopyDst : UsageFlags := ⟨false, true, true⟩

/-- Usage `VERTEX` only, used for the initial empty vertex buffer. -/
def vertexOnly : UsageFlags := ⟨true, false, false⟩

/-- Usage `INDEX` only, used for the initial empty index buffer. -/
def indexOnly : UsageFlags := ⟨false, true, false⟩

/-- Model of a `wgpu::Buffer` as the CPU can observe it: `size` is the
byte capacity (`Buffer::size()`), `data` the element contents (the
written prefix followed by any stale tail), `usage` the flags given at
creation, and `gen` a generation counter bumped exactly when the source
calls `destroy()` and re-creates the buffer, so `gen` tracks
reallocation. -/
structure GBuffer (α : Type) where
  size : ℕ
  data : List α
  usage : UsageFlags
  gen : ℕ
deriving DecidableEq

/-- Shared grow-or-write step of every `upload_data` in the repository:
if the existing capacity is below `cmp_bytes`, destroy the buffer and
create a new one from the CPU contents (`alloc_bytes` bytes, new usage
flags); otherwise `queue.write_buffer` the contents in place, leaving any
stale tail bytes. In the source `cmp_bytes` and `alloc_bytes` coincide
except for the `FontRenderer::upload_data` revision in `src/main.rs`,
which compares against `size_of::<Vertex>()` while writing `FontVertex`
data. -/
def growOrWrite {α : Type} (b : GBuffer α) (content : List α)
    (cmp_bytes alloc_bytes : ℕ) (u : UsageFlags) : GBuffer α :=
  if b.size < cmp_bytes then
    { size := alloc_bytes, data := content, usage := u, gen := b.gen + 1 }
  else
    { b with data := content ++ b.data.drop content.length }

/-- CPU-observable state of `QuadRenderer`
(`src/main.rs:223`, `src/quad/renderer.rs:150`). -/
structure QuadRenderer where
  vertices : List Vertex
  indices : List ℕ
  vbo : GBuffer Vertex
  ibo : GBuffer ℕ
  has_data : Bool
deriving DecidableEq

/-- State produced by `QuadRenderer::new`: empty CPU lists, zero-sized
GPU buffers, `has_data = false`. -/
def QuadRenderer.new : QuadRenderer :=
  { vertices := []
    indices := []
    vbo := { size := 0, data := [], usage := vertexOnly, gen := 0 }
    ibo := { size := 0, data := [], usage := indexOnly, gen := 0 }
    has_data := false }

/-- `QuadRenderer::push(x, y, w, h, color)`
(`src/main.rs:303-328`, `src/quad/renderer.rs:66-91`): sets `has_data`,
appends the four corner vertices and six indices; `start` is
`self.vertices.len() as u16`, so the length is reduced `% 2^16`, and the
`u16` additions `start + k` wrap the same way. -/
def QuadRenderer.push (s : QuadRenderer) (x y w h : ℚ) (color : ℚ × ℚ × ℚ) :
    QuadRenderer :=
  let start := s.vertices.length % 65536
  { s with
    has_data := true
    vertices := s.vertices ++
      [⟨(x, y, 0), color⟩, ⟨(x + w, y, 0), color⟩,
       ⟨(x + w, y + h, 0), color⟩, ⟨(x, y + h, 0), color⟩]
    indices := s.indices ++
      [start, (start + 1) % 65536, (start + 2) % 65536,
       start, (start + 2) % 65536, (start + 3) % 65536] }

/-- `QuadRenderer::clear` (`src/quad/renderer.rs:109-113`). -/
def QuadRenderer.clear (s : QuadRenderer) : QuadRenderer :=
  { s with indices := [], vertices := [], has_data := false }

/-- `QuadRenderer::empty` (`src/quad/renderer.rs:115-117`). -/
def QuadRenderer.empty (s : QuadRenderer) : Bool :=
  s.vertices.isEmpty

/-- `QuadRenderer::upload_data`
(`src/main.rs:356-383`, `src/quad/renderer.rs:119-146`): no-op on an
empty vertex list, otherwise grow-or-write the vertex buffer against
`len * size_of::<Vertex>()` (24 bytes) and the index buffer against
`len * size_of::<u16>()` (2 bytes). -/
def QuadRenderer.upload_data (s : QuadRenderer) : QuadRenderer :=
  if s.vertices.isEmpty then s
  else
    { s with
      vbo := growOrWrite s.vbo s.vertices (s.vertices.length * 24)
        (s.vertices.length * 24) vertexCopyDst
      ibo := growOrWrite s.ibo s.indices (s.indices.length * 2)
        (s.indices.length * 2) indexCopyDst }

/-- CPU-observable state of `FontRenderer`
(`src/main.rs:232`, `src/font/renderer.rs:5`). -/
structure FontRenderer where
  vertices : List FontVertex
  indices : List ℕ
  vbo : GBuffer FontVertex
  ibo : GBuffer ℕ
  has_data : Bool
deriving DecidableEq

/-- State produced by `FontRenderer::new`. -/
def FontRenderer.new : FontRenderer :=
  { vertices := []
    indices := []
    vbo := { size := 0, data := [], usage := vertexOnly, gen := 0 }
    ibo := { size := 0, data := [], usage := indexOnly, gen := 0 }
    has_data := false }

/-- Glyph atlas as the batch code observes it (`MonoGlyphAtlas` in
`src/main.rs:552-560`): the character → UV-rectangle map and the uniform
cell size in pixels. Texture, view, sampler and bind groups are GPU
resources outside the data model. -/
structure MonoGlyphAtlas where
  glyph_map : List (Char × (ℚ × ℚ × ℚ × ℚ))
  cell_size : ℕ × ℕ
deriving DecidableEq

/-- Outcome of `FontRenderer::push`: the Rust function returns `()` but
can abort the process via `unwrap()` on a missing `glyph_map` entry;
`panicked` embeds that abort. -/
inductive FontPushResult
  | panicked
  | ok (s : FontRenderer)
deriving DecidableEq

/-- `FontRenderer::push(x, y, color, c, atlas)`
(`src/main.rs:451-492`, `src/font/renderer.rs:116-157`): looks up `c` in
`atlas.glyph_map` and `unwrap()`s — a missing entry aborts (the
`has_data = true` write preceding the `unwrap` is unobservable after the
abort). On success appends four vertices spanning one atlas cell and six
indices, with the same `u16` wrap as the quad variant. -/
def FontRenderer.push (s : FontRenderer) (x y : ℚ) (color : ℚ × ℚ × ℚ)
    (c : Char) (atlas : MonoGlyphAtlas) : FontPushResult :=
  match atlas.glyph_map.lookup c with
  | none => .panicked
  | some (u0, v0, u1, v1) =>
    let start := s.vertices.length % 65536
    let w : ℚ := atlas.cell_size.1
    let h : ℚ := atlas.cell_size.2
    .ok { s with
      has_data := true
      vertices := s.vertices ++
        [⟨(x, y, 0), color, (u0, v0)⟩, ⟨(x + w, y, 0), color, (u1, v0)⟩,
         ⟨(x + w, y + h, 0), color, (u1, v1)⟩, ⟨(x, y + h, 0), color, (u0, v1)⟩]
      indices := s.indices ++
        [start, (start + 1) % 65536, (start + 2) % 65536,
         start, (start + 2) % 65536, (start + 3) % 65536] }

/-- `FontRenderer::clear` (`src/font/renderer.rs:177-181`). -/
def FontRenderer.clear (s : FontRenderer) : FontRenderer :=
  { s with indices := [], vertices := [], has_data := false }

/-- `FontRenderer::empty` (`src/font/renderer.rs:183-185`). -/
def FontRenderer.empty (s : FontRenderer) : Bool :=
  s.vertices.isEmpty

/-- `FontRenderer::upload_data` as in `src/font/renderer.rs:187-214`:
grow-or-write with `len * size_of::<FontVertex>()` (32 bytes) on both
sides. -/
def FontRenderer.upload_data (s : FontRenderer) : FontRenderer :=
  if s.vertices.isEmpty then s
  else
    { s with
      vbo := growOrWrite s.vbo s.vertices (s.vertices.length * 32)
        (s.vertices.length * 32) vertexCopyDst
      ibo := growOrWrite s.ibo s.indices (s.indices.length * 2)
        (s.indices.length * 2) indexCopyDst }

/-- `FontRenderer::upload_data` as in `src/main.rs:522-549`: this
revision compares the vertex-buffer capacity against
`len * size_of::<Vertex>()` (24 bytes) while the written contents are
`FontVertex` data (32 bytes each, so a grown buffer holds `len * 32`
bytes). -/
def FontRenderer.upload_data_main (s : FontRenderer) : FontRenderer :=
  if s.vertices.isEmpty then s
  else
    { s with
      vbo := growOrWrite s.vbo s.vertices (s.vertices.length * 24)
        (s.vertices.length * 32) vertexCopyDst
      ibo := growOrWrite s.ibo s.indices (s.indices.length * 2)
        (s.indices.length * 2) indexCopyDst }

/-- Batch-relevant state of the frame controller `Renderer`
(`src/main.rs:207-221`). -/
structure Renderer where
  quad_renderer : QuadRenderer
  font_renderer : FontRenderer
deriving DecidableEq

/-- `Renderer::begin_frame` (`src/main.rs:761-764`): clears both
batches. -/
def Renderer.begin_frame (s : Renderer) : Renderer :=
  { quad_renderer := s.quad_renderer.clear
    font_renderer := s.font_renderer.clear }

/-- `Renderer::end_frame` (`src/main.rs:766-776`): returns early when the
quad batch is empty, then returns early when the font batch is empty, and
only otherwise uploads both batches (`src/main.rs` hosts the
`upload_data` revision that compares the font stride as
`size_of::<Vertex>()`). -/
def Renderer.end_frame (s : Renderer) : Renderer :=
  if s.quad_renderer.empty then s
  else if s.font_renderer.empty then s
  else
    { quad_renderer := s.quad_renderer.upload_data
      font_renderer := s.font_renderer.upload_data_main }

/-- `cgmath::ortho(left, right, bottom, top, near, far)` transcribed from
the `cgmath` crate (`Matrix4::from_cols` of the four standard OpenGL
orthographic columns), written here row-major: row `i`, column `j` of the
matrix is entry `i` of column `j`. -/
def cgmath_ortho (l r b t n f : ℚ) : Matrix (Fin 4) (Fin 4) ℚ :=
  !![2 / (r - l), 0, 0, -(r + l) / (r - l);
     0, 2 / (t - b), 0, -(t + b) / (t - b);
     0, 0, -2 / (f - n), -(f + n) / (f - n);
     0, 0, 0, 1]

/-- `OPENGL_TO_WGPU_MATRIX` (`src/camera.rs:77-83`): identity on X and Y,
row 2 is `(0, 0, 1/2, 1/2)` — `from_cols` with columns
`(1,0,0,0), (0,1,0,0), (0,0,0.5,0), (0,0,0.5,1)`. -/
def OPENGL_TO_WGPU_MATRIX : Matrix (Fin 4) (Fin 4) ℚ :=
  !![1, 0, 0, 0;
     0, 1, 0, 0;
     0, 0, 1/2, 1/2;
     0, 0, 0, 1]

/-- `Camera::build_proj` (`src/camera.rs:70-74`):
`OPENGL_TO_WGPU_MATRIX * cgmath::ortho(0.0, width, height, 0.0, 0.0, 2.0)`
— in `cgmath`'s argument order the third argument is `bottom` and the
fourth is `top`, so the call passes `bottom = height`, `top = 0`. -/
def Camera.build_proj (size : ℕ × ℕ) : Matrix (Fin 4) (Fin 4) ℚ :=
  OPENGL_TO_WGPU_MATRIX * cgmath_ortho 0 (size.1 : ℚ) (size.2 : ℚ) 0 0 2

/-- CPU-observable state of `Camera` (`src/camera.rs:3-10`): the viewport
size, the stored matrix, and the contents of the GPU uniform buffer. -/
structure Camera where
  size : ℕ × ℕ
  view_proj : Matrix (Fin 4) (Fin 4) ℚ
  uniform_buffer : Matrix (Fin 4) (Fin 4) ℚ

/-- `Camera::new_from_size` (`src/camera.rs:13-51`): computes the
projection and initializes the uniform buffer with it. -/
def Camera.new_from_size (size : ℕ × ℕ) : Camera :=
  { size := size
    view_proj := Camera.build_proj size
    uniform_buffer := Camera.build_proj size }

/-- `Camera::resize` (`src/camera.rs:52-60`): recomputes the matrix for
the new size and writes it whole into the existing uniform buffer. -/
def Camera.resize (c : Camera) (new_size : ℕ × ℕ) : Camera :=
  { size := new_size
    view_proj := Camera.build_proj new_size
    uniform_buffer := Camera.build_proj new_size }

/-- Standard orthographic projection matrix with the named clip planes,
used to state the specification's claim about `view_proj`: the plane
`x = l` maps to NDC `-1`, `x = r` to `+1`, `y = b` to `-1`, `y = t` to
`+1`, `z = n` to `-1`, `z = f` to `+1`. -/
def ortho_spec (l r b t n f : ℚ) : Matrix (Fin 4) (Fin 4) ℚ :=
  !![2 / (r - l), 0, 0, -(r + l) / (r - l);
     0, 2 / (t - b), 0, -(t + b) / (t - b);
     0, 0, -2 / (f - n), -(f + n) / (f - n);
     0, 0, 0, 1]

/-- The coordinate-convention correction matrix as the specification
describes it: identity on X and Y, and Z halved and re-biased from
`[-1, 1]` to `[0, 1]` (`z ↦ z/2 + 1/2`, acting on homogeneous
coordinates). -/
def correction_spec : Matrix (Fin 4) (Fin 4) ℚ :=
  !![1, 0, 0, 0;
     0, 1, 0, 0;
     0, 0, 1/2, 1/2;
     0, 0, 0, 1]

/-- Oracle for the external `ab_glyph` font library: for each character,
`px_bounds c` is the pixel bounding box (width, height) of the outlined
glyph at the fixed scale, or `none` when the font cannot outline the
character (`Font::outline_glyph` returning `None`, e.g. for a space). -/
structure FontModel where
  px_bounds : Char → Option (ℚ × ℚ)

/-- Outcome of `create_monospace_atlas`: the function `unwrap()`s both
the font parse and the outline of the reference glyph `'M'`, so it can
abort the process. -/
inductive AtlasBuildResult
  | panicked
  | ok (a : MonoGlyphAtlas)
deriving DecidableEq

/-- The 95 printable ASCII characters laid out in the atlas
(`(0x20u8..0x7Fu8).map(|c| c as char)` in `src/main.rs:572`). -/
def atlas_chars : List Char :=
  (List.range 95).map (fun i => Char.ofNat (0x20 + i))

/-- `create_monospace_atlas(device, queue, font_data, scale)`
(`src/main.rs:562-710`), restricted to its CPU-observable outputs
(`glyph_map` and `cell_size`). The font parse result is the
`Option FontModel` argument (`FontRef::try_from_slice(...).unwrap()`
aborts on `none`); the outline of `'M'` is `unwrap()`ed; cell width and
height are the ceilings of the `'M'` bounds; characters are laid out in a
16-column grid with `ceil(95 / 16)` rows, and every character the font
can outline is recorded with the UV rectangle of its grid slot. The
rasterization, compositing and texture upload have no CPU-observable
output and are not modelled. -/
def create_monospace_atlas (font_data : Option FontModel) : AtlasBuildResult :=
  match font_data with
  | none => .panicked
  | some font =>
    match font.px_bounds 'M' with
    | none => .panicked
    | some bb =>
      let cell_w : ℕ := ⌈bb.1⌉.toNat
      let cell_h : ℕ := ⌈bb.2⌉.toNat
      let cols : ℕ := 16
      let rows : ℕ := ⌈(atlas_chars.length : ℚ) / (cols : ℚ)⌉.toNat
      let atlas_width : ℕ := cols * cell_w
      let atlas_height : ℕ := rows * cell_h
      let glyph_map := atlas_chars.enum.filterMap (fun p =>
        match font.px_bounds p.2 with
        | none => none
        | some _ =>
          let x : ℕ := (p.1 % cols) * cell_w
          let y : ℕ := (p.1 / cols) * cell_h
          some (p.2,
            ((x : ℚ) / (atlas_width : ℚ), (y : ℚ) / (atlas_height : ℚ),
             ((x + cell_w : ℕ) : ℚ) / (atlas_width : ℚ),
             ((y + cell_h : ℕ) : ℚ) / (atlas_height : ℚ))))
      .ok { glyph_map := glyph_map, cell_size := (cell_w, cell_h) }

/-- UV rectangle of grid slot `i` for cell size `cw × ch` in the
16-column, 6-row atlas: `(x/atlasW, y/atlasH, (x+cw)/atlasW,
(y+ch)/atlasH)` with `x = (i % 16) * cw`, `y = (i / 16) * ch`,
`atlasW = 16 * cw`, `atlasH = 6 * ch`. -/
def slot_uv_rect (i cw ch : ℕ) : ℚ × ℚ × ℚ × ℚ :=
  (((i % 16 * cw : ℕ) : ℚ) / ((16 * cw : ℕ) : ℚ),
   ((i / 16 * ch : ℕ) : ℚ) / ((6 * ch : ℕ) : ℚ),
   ((i % 16 * cw + cw : ℕ) : ℚ) / ((16 * cw : ℕ) : ℚ),
   ((i / 16 * ch + ch : ℕ) : ℚ) / ((6 * ch : ℕ) : ℚ))

/-- A UV rectangle `(u0, v0, u1, v1)` lies inside the unit square. -/
def rect_in_unit : ℚ × ℚ × ℚ × ℚ → Prop
  | (u0, v0, u1, v1) =>
    0 ≤ u0 ∧ u0 ≤ 1 ∧ 0 ≤ v0 ∧ v0 ≤ 1 ∧ 0 ≤ u1 ∧ u1 ≤ 1 ∧ 0 ≤ v1 ∧ v1 ≤ 1

/-- Two UV rectangles overlap when their interiors intersect. -/
def rects_overlap : ℚ × ℚ × ℚ × ℚ → ℚ × ℚ × ℚ × ℚ → Prop
  | (u0, v0, u1, v1), (u0', v0', u1', v1') =>
    u0 < u1' ∧ u0' < u1 ∧ v0 < v1' ∧ v0' < v1

/-- Specification property of an atlas, as claimed: every recorded
rectangle is exactly the UV rectangle of its character's grid slot
(computed from the atlas's single `cell_size`) and lies in the unit
square, and rectangles of distinct characters never overlap. -/
def atlas_uv_spec (a : MonoGlyphAtlas) : Prop :=
  (∀ ch r, (ch, r) ∈ a.glyph_map →
    (∃ i, i < atlas_chars.length ∧ atlas_chars[i]? = some ch ∧
      r = slot_uv_rect i a.cell_size.1 a.cell_size.2) ∧ rect_in_unit r) ∧
  (∀ ch₁ r₁ ch₂ r₂, (ch₁, r₁) ∈ a.glyph_map → (ch₂, r₂) ∈ a.glyph_map →
    ch₁ ≠ ch₂ → ¬ rects_overlap r₁ r₂)

/-- Helper: one grow-or-write step with equal compare and allocation byte
counts is idempotent on the buffer. -/
theorem growOrWrite_idem {α : Type} (b : GBuffer α) (c : List α) (k : ℕ)
    (u : UsageFlags) :
    growOrWrite (growOrWrite b c k k u) c k k u = growOrWrite b c k k u := by
  unfold growOrWrite
  by_cases h : b.size < k
  · simp [h]
  · simp [h, List.drop_left]

/-- A quad batch that has already accumulated 65536 vertices (16384
pushed quads); its next push wraps the `u16` start index. -/
def quad_filler_vertex : Vertex := ⟨(0, 0, 0), (0, 0, 0)⟩

/-- Quad batch holding exactly 65536 vertices. -/
def quad_batch_full : QuadRenderer :=
  { vertices := List.replicate 65536 quad_filler_vertex
    indices := []
    vbo := { size := 0, data := [], usage := vertexOnly, gen := 0 }
    ibo := { size := 0, data := [], usage := indexOnly, gen := 0 }
    has_data := true }

/-- C1 counterexample: on a batch whose pre-push vertex count is 65536,
the six appended indices are not offset by the pre-push vertex count —
the `as u16` cast wraps the start index to 0. -/
theorem quad_push_offset_counterexample :
    (quad_batch_full.push 0 0 1 1 (0, 1, 0)).indices ≠
      quad_batch_full.indices ++
        [quad_batch_full.vertices.length, quad_batch_full.vertices.length + 1,
         quad_batch_full.vertices.length + 2, quad_batch_full.vertices.length,
         quad_batch_full.vertices.length + 2, quad_batch_full.vertices.length + 3] := by
  have hlen : quad_batch_full.vertices.length = 65536 := by
    simp only [quad_batch_full, List.length_replicate]
  have hL : (quad_batch_full.push 0 0 1 1 (0, 1, 0)).indices =
      [0, 1, 2, 0, 2, 3] := by
    simp only [QuadRenderer.push, hlen, quad_batch_full, Nat.mod_self,
      List.nil_append]
    norm_num
  have hR : quad_batch_full.indices ++
      [quad_batch_full.vertices.length, quad_batch_full.vertices.length + 1,
       quad_batch_full.vertices.length + 2, quad_batch_full.vertices.length,
       quad_batch_full.vertices.length + 2, quad_batch_full.vertices.length + 3] =
      [65536, 65537, 65538, 65536, 65538, 65539] := by
    rw [hlen, show quad_batch_full.indices = [] from rfl]
    norm_num
  intro h
  rw [hL, hR] at h
  exact absurd h (by decide)

/-- C1 (amended): whenever the pre-push vertex count plus 4 still fits
the 16-bit index space, `QuadRenderer::push` appends exactly the four
corner vertices `(x,y), (x+w,y), (x+w,y+h), (x,y+h)` in that order (z 0,
all carrying `color`) and exactly the six indices of triangles
`(0,1,2)` and `(0,2,3)` offset by the pre-push vertex count, and sets
`has_data`. -/
theorem quad_push_spec (s : QuadRenderer) (x y w h : ℚ) (color : ℚ × ℚ × ℚ)
    (hcap : s.vertices.length + 4 ≤ 65536) :
    s.push x y w h color =
      { s with
        has_data := true
        vertices := s.vertices ++
          [⟨(x, y, 0), color⟩, ⟨(x + w, y, 0), color⟩,
           ⟨(x + w, y + h, 0), color⟩, ⟨(x, y + h, 0), color⟩]
        indices := s.indices ++
          [s.vertices.length, s.vertices.length + 1, s.vertices.length + 2,
           s.vertices.length, s.vertices.length + 2, s.vertices.length + 3] } := by
  have h0 : s.vertices.length % 65536 = s.vertices.length :=
    Nat.mod_eq_of_lt (by omega)
  have h1 : (s.vertices.length + 1) % 65536 = s.vertices.length + 1 :=
    Nat.mod_eq_of_lt (by omega)
  have h2 : (s.vertices.length + 2) % 65536 = s.vertices.length + 2 :=
    Nat.mod_eq_of_lt (by omega)
  have h3 : (s.vertices.length + 3) % 65536 = s.vertices.length + 3 :=
    Nat.mod_eq_of_lt (by omega)
  simp [QuadRenderer.push, h0, h1, h2, h3]

/-- C1 witness: the amended push specification evaluated on the initial
empty batch. -/
theorem quad_push_spec_witness :
    QuadRenderer.new.vertices.length + 4 ≤ 65536 ∧
    QuadRenderer.new.push 0 0 1 1 (1, 1, 1) =
      { QuadRenderer.new with
        has_data := true
        vertices := QuadRenderer.new.vertices ++
          [⟨(0, 0, 0), (1, 1, 1)⟩, ⟨(0 + 1, 0, 0), (1, 1, 1)⟩,
           ⟨(0 + 1, 0 + 1, 0), (1, 1, 1)⟩, ⟨(0, 0 + 1, 0), (1, 1, 1)⟩]
        indices := QuadRenderer.new.indices ++
          [QuadRenderer.new.vertices.length, QuadRenderer.new.vertices.length + 1,
           QuadRenderer.new.vertices.length + 2, QuadRenderer.new.vertices.length,
           QuadRenderer.new.vertices.length + 2, QuadRenderer.new.vertices.length + 3] } :=
  ⟨by decide, quad_push_spec QuadRenderer.new 0 0 1 1 (1, 1, 1) (by decide)⟩

/-- Atlas with no glyph entries at all, as seen by a character that the
font cannot outline. -/
def empty_atlas : MonoGlyphAtlas := { glyph_map := [], cell_size := (0, 0) }

/-- C2 counterexample: pushing the space character (no atlas entry)
aborts the process — `FontRenderer::push` `unwrap()`s the failed lookup
instead of returning an error value to the caller. -/
theorem font_push_lookup_counterexample :
    FontRenderer.push FontRenderer.new 0 0 (1, 1, 1) (Char.ofNat 32)
      empty_atlas = .panicked := rfl

/-- C2 (amended): for every character with no entry in the atlas's UV
map, `FontRenderer::push` panics (process abort on the `unwrap()` of the
lookup); it does not silently skip the glyph, and it does not return an
error value. -/
theorem font_push_missing_aborts (s : FontRenderer) (x y : ℚ)
    (color : ℚ × ℚ × ℚ) (c : Char) (atlas : MonoGlyphAtlas)
    (h : atlas.glyph_map.lookup c = none) :
    FontRenderer.push s x y color c atlas = .panicked := by
  simp [FontRenderer.push, h]

/-- C2 witness: the amended statement evaluated at the space character
and an atlas without entries. -/
theorem font_push_missing_aborts_witness :
    empty_atlas.glyph_map.lookup (Char.ofNat 32) = none ∧
    FontRenderer.push FontRenderer.new 5 5 (1, 1, 1) (Char.ofNat 32)
      empty_atlas = .panicked :=
  ⟨rfl, font_push_missing_aborts FontRenderer.new 5 5 (1, 1, 1)
    (Char.ofNat 32) empty_atlas rfl⟩

/-- Frame state with one pushed quad and an empty glyph batch. -/
def frame_quad_only : Renderer :=
  { quad_renderer := QuadRenderer.new.push 0 0 100 100 (0, 1, 0)
    font_renderer := FontRenderer.new }

/-- C3: `end_frame` at a frame whose quad batch is non-empty but whose
glyph batch is empty uploads nothing at all — the early return on the
empty font batch also skips the quad upload, although uploading the quad
batch would have changed its GPU buffers. -/
theorem end_frame_skips_nonempty_quad :
    frame_quad_only.quad_renderer.empty = false ∧
    frame_quad_only.end_frame = frame_quad_only ∧
    frame_quad_only.quad_renderer.upload_data ≠ frame_quad_only.quad_renderer := by
  refine ⟨rfl, rfl, fun h => ?_⟩
  have hsz : frame_quad_only.quad_renderer.upload_data.vbo.size =
      frame_quad_only.quad_renderer.vbo.size :=
    congrArg (fun t => t.vbo.size) h
  have h96 : (96 : ℕ) = 0 := hsz
  exact absurd h96 (by decide)

/-- C4: pushing one more quad into a batch already holding 65536 vertices
silently wraps: the `len as u16` cast reduces the start index to 0 and
push appends indices `[0,1,2,0,2,3]` with no error of any kind (the
function has no error channel at all). -/
theorem quad_push_silent_wrap :
    quad_batch_full.vertices.length = 65536 ∧
    (quad_batch_full.push 1 1 2 2 (1, 0, 0)).indices = [0, 1, 2, 0, 2, 3] := by
  have hlen : quad_batch_full.vertices.length = 65536 := by
    simp only [quad_batch_full, List.length_replicate]
  refine ⟨hlen, ?_⟩
  simp only [QuadRenderer.push, hlen, quad_batch_full, Nat.mod_self,
    List.nil_append]
  norm_num

/-- Arbitrary glyph vertex used to fill test batches. -/
def font_filler_vertex : FontVertex := ⟨(0, 0, 0), (1, 1, 1), (0, 0)⟩

/-- Font batch with 16 CPU vertices (512 bytes of `FontVertex` data) and
an existing 384-byte GPU vertex buffer. -/
def font_batch_16 : FontRenderer :=
  { vertices := List.replicate 16 font_filler_vertex
    indices := []
    vbo := { size := 384, data := [], usage := vertexCopyDst, gen := 5 }
    ibo := { size := 0, data := [], usage := indexOnly, gen := 0 }
    has_data := true }

/-- C6: the `src/main.rs` revision of `FontRenderer::upload_data`
compares the vertex-buffer capacity against `len * size_of::<Vertex>()`
(24 bytes) instead of `size_of::<FontVertex>()` (32 bytes): with 16
vertices (512 bytes) and a 384-byte buffer it does not reallocate
(generation and size unchanged) even though the capacity is smaller than
the CPU byte size, while the `src/font/renderer.rs` revision correctly
grows the buffer to 512 bytes. -/
theorem font_upload_stride_bug :
    font_batch_16.vertices.length * 32 = 512 ∧
    font_batch_16.upload_data_main.vbo.size = 384 ∧
    font_batch_16.upload_data_main.vbo.gen = 5 ∧
    font_batch_16.upload_data.vbo.size = 512 ∧
    font_batch_16.upload_data.vbo.gen = 6 := by
  decide

/-- C7: `QuadRenderer::upload_data` is idempotent — a second consecutive
call with no intervening push leaves the whole batch state (both GPU
buffer contents and their generation counters, hence no reallocation)
unchanged. -/
theorem upload_data_idempotent (s : QuadRenderer) :
    s.upload_data.upload_data = s.upload_data := by
  unfold QuadRenderer.upload_data
  cases hv : s.vertices.isEmpty with
  | true => simp [hv]
  | false => simp [hv, growOrWrite_idem]

/-- C8: clearing a quad batch makes `empty()` true, and pushing into any
quad batch (with any arguments) makes `empty()` false. -/
theorem clear_then_empty_push_then_not (s : QuadRenderer) (x y w h : ℚ)
    (color : ℚ × ℚ × ℚ) :
    s.clear.empty = true ∧ (s.push x y w h color).empty = false := by
  refine ⟨rfl, ?_⟩
  simp [QuadRenderer.push, QuadRenderer.empty]

/-- Font oracle that cannot outline any character (in particular not the
reference glyph `'M'`), although the font bytes parsed successfully. -/
def font_without_outlines : FontModel := ⟨fun _ => none⟩

/-- C10: when the parsed font provides no outline for the reference glyph
`'M'`, `create_monospace_atlas` aborts the process (the `unwrap()` on
`outline_glyph`), even though the font bytes parsed successfully. -/
theorem create_monospace_atlas_M_aborts (font : FontModel)
    (h : font.px_bounds 'M' = none) :
    create_monospace_atlas (some font) = .panicked := by
  simp [create_monospace_atlas, h]

/-- C10 witness: a successfully parsed font without outlines makes the
atlas builder abort. -/
theorem create_monospace_atlas_M_aborts_witness :
    font_without_outlines.px_bounds 'M' = none ∧
    create_monospace_atlas (some font_without_outlines) = .panicked :=
  ⟨rfl, create_monospace_atlas_M_aborts font_without_outlines rfl⟩

/-- Helper: the atlas lays out 95 characters. -/
theorem atlas_chars_length : atlas_chars.length = 95 := by
  simp [atlas_chars]

/-- Helper: the row count `ceil(95 / 16)` computed by the builder is 6. -/
theorem atlas_rows_eq :
    (⌈(atlas_chars.length : ℚ) / ((16 : ℕ) : ℚ)⌉).toNat = 6 := by
  rw [atlas_chars_length]
  have h6 : ⌈((95 : ℕ) : ℚ) / ((16 : ℕ) : ℚ)⌉ = (6 : ℤ) := by
    rw [Int.ceil_eq_iff] <;> norm_num
  rw [h6]
  rfl

/-- Helper: on a successfully parsed font whose reference glyph `'M'` has
an outline with bounds `bb`, the builder returns the atlas whose cells
are `⌈bb⌉` and whose map sends each outlinable character to the UV
rectangle of its grid slot. -/
theorem create_monospace_atlas_ok (font : FontModel) (bb : ℚ × ℚ)
    (hM : font.px_bounds 'M' = some bb) :
    create_monospace_atlas (some font) =
      .ok { glyph_map := atlas_chars.enum.filterMap (fun p =>
              match font.px_bounds p.2 with
              | none => none
              | some _ => some (p.2, slot_uv_rect p.1 ⌈bb.1⌉.toNat ⌈bb.2⌉.toNat))
            cell_size := (⌈bb.1⌉.toNat, ⌈bb.2⌉.toNat) } := by
  simp only [create_monospace_atlas, hM, atlas_rows_eq]
  rfl

/-- Helper: membership in the built glyph map yields the character's
index and the slot rectangle. -/
theorem mem_built_glyph_map {font : FontModel} {cw ch : ℕ} {c : Char}
    {r : ℚ × ℚ × ℚ × ℚ}
    (hmem : (c, r) ∈ atlas_chars.enum.filterMap (fun p =>
      match font.px_bounds p.2 with
      | none => none
      | some _ => some (p.2, slot_uv_rect p.1 cw ch))) :
    ∃ i, i < 95 ∧ atlas_chars[i]? = some c ∧ r = slot_uv_rect i cw ch := by
  rw [List.mem_filterMap] at hmem
  obtain ⟨⟨i, c'⟩, hpe, hfe⟩ := hmem
  cases hpx : font.px_bounds c' with
  | none => rw [hpx] at hfe; simp at hfe
  | some bb2 =>
    rw [hpx] at hfe
    simp only [Option.some.injEq, Prod.mk.injEq] at hfe
    obtain ⟨hc, hr⟩ := hfe
    have hget : atlas_chars[i]? = some c' :=
      List.mem_enum_iff_getElem?.mp hpe
    have hi : i < atlas_chars.length := by
      obtain ⟨hlt, -⟩ := List.getElem?_eq_some_iff.mp hget
      exact hlt
    exact ⟨i, atlas_chars_length ▸ hi, hc ▸ hget, hr.symm⟩

/-- Helper: every slot rectangle of the 16 × 6 grid lies inside the unit
square. -/
theorem slot_uv_rect_in_unit (i cw ch : ℕ) (hi : i < 95) :
    rect_in_unit (slot_uv_rect i cw ch) := by
  have hmod : i % 16 < 16 := Nat.mod_lt i (by norm_num)
  have hdiv : i / 16 ≤ 5 := by omega
  have h1 : i % 16 * cw ≤ 16 * cw := Nat.mul_le_mul_right cw (le_of_lt hmod)
  have h2 : i % 16 * cw + cw ≤ 16 * cw := by
    have h' : (i % 16 + 1) * cw ≤ 16 * cw := Nat.mul_le_mul_right cw (by omega)
    rwa [Nat.succ_mul] at h'
  have h3 : i / 16 * ch ≤ 6 * ch := Nat.mul_le_mul_right ch (by omega)
  have h4 : i / 16 * ch + ch ≤ 6 * ch := by
    have h' : (i / 16 + 1) * ch ≤ 6 * ch := Nat.mul_le_mul_right ch (by omega)
    rwa [Nat.succ_mul] at h'
  unfold slot_uv_rect rect_in_unit
  refine ⟨?_, ?_, ?_, ?_, ?_, ?_, ?_, ?_⟩ <;>
    first
      | exact div_nonneg (Nat.cast_nonneg _) (Nat.cast_nonneg _)
      | exact div_le_one_of_le₀ (Nat.cast_le.mpr (by omega)) (Nat.cast_nonneg _)

/-- Helper: distinct slots of the 16-column grid have non-overlapping UV
rectangles (degenerate cells cannot overlap at all). -/
theorem slot_uv_rect_disjoint (i j cw ch : ℕ) (hij : i ≠ j) :
    ¬ rects_overlap (slot_uv_rect i cw ch) (slot_uv_rect j cw ch) := by
  unfold slot_uv_rect rects_overlap
  rintro ⟨h1, h2, h3, h4⟩
  by_cases hcw : cw = 0
  · subst hcw; simp at h1
  by_cases hch : ch = 0
  · subst hch; simp at h3
  have hcw' : (0 : ℚ) < ((16 * cw : ℕ) : ℚ) := by
    exact_mod_cast Nat.pos_of_ne_zero (by omega)
  have hch' : (0 : ℚ) < ((6 * ch : ℕ) : ℚ) := by
    exact_mod_cast Nat.pos_of_ne_zero (by omega)
  rw [div_lt_div_iff_of_pos_right hcw'] at h1 h2
  rw [div_lt_div_iff_of_pos_right hch'] at h3 h4
  have n1 : i % 16 * cw < j % 16 * cw + cw := by exact_mod_cast h1
  have n2 : j % 16 * cw < i % 16 * cw + cw := by exact_mod_cast h2
  have n3 : i / 16 * ch < j / 16 * ch + ch := by exact_mod_cast h3
  have n4 : j / 16 * ch < i / 16 * ch + ch := by exact_mod_cast h4
  have e1 : i % 16 = j % 16 := by
    have l1 : i % 16 < j % 16 + 1 := by
      refine lt_of_mul_lt_mul_right ?_ (Nat.zero_le cw)
      calc i % 16 * cw < j % 16 * cw + cw := n1
        _ = (j % 16 + 1) * cw := (Nat.succ_mul _ _).symm
    have l2 : j % 16 < i % 16 + 1 := by
      refine lt_of_mul_lt_mul_right ?_ (Nat.zero_le cw)
      calc j % 16 * cw < i % 16 * cw + cw := n2
        _ = (i % 16 + 1) * cw := (Nat.succ_mul _ _).symm
    omega
  have e2 : i / 16 = j / 16 := by
    have l1 : i / 16 < j / 16 + 1 := by
      refine lt_of_mul_lt_mul_right ?_ (Nat.zero_le ch)
      calc i / 16 * ch < j / 16 * ch + ch := n3
        _ = (j / 16 + 1) * ch := (Nat.succ_mul _ _).symm
    have l2 : j / 16 < i / 16 + 1 := by
      refine lt_of_mul_lt_mul_right ?_ (Nat.zero_le ch)
      calc j / 16 * ch < i / 16 * ch + ch := n4
        _ = (i / 16 + 1) * ch := (Nat.succ_mul _ _).symm
    omega
  exact hij (by omega)

/-- C5: every atlas the builder returns satisfies the UV specification:
each recorded rectangle is exactly `(x/atlasW, y/atlasH, (x+cellW)/atlasW,
(y+cellH)/atlasH)` for its character's grid slot (with the atlas's single
`cell_size` used for every cell), lies inside the unit square, and
rectangles of distinct characters are pairwise non-overlapping. -/
theorem create_monospace_atlas_uv (font : FontModel) (a : MonoGlyphAtlas)
    (h : create_monospace_atlas (some font) = .ok a) :
    atlas_uv_spec a := by
  cases hM : font.px_bounds 'M' with
  | none =>
    rw [create_monospace_atlas_M_aborts font hM] at h
    exact absurd h (by simp)
  | some bb =>
    rw [create_monospace_atlas_ok font bb hM] at h
    rw [AtlasBuildResult.ok.injEq] at h
    subst h
    constructor
    · rintro c r hmem
      obtain ⟨i, hi, hget, hr⟩ := mem_built_glyph_map hmem
      exact ⟨⟨i, atlas_chars_length ▸ hi, hget, hr⟩,
        hr ▸ slot_uv_rect_in_unit i _ _ hi⟩
    · rintro c₁ r₁ c₂ r₂ h1 h2 hne hov
      obtain ⟨i, hi, hget1, hr1⟩ := mem_built_glyph_map h1
      obtain ⟨j, hj, hget2, hr2⟩ := mem_built_glyph_map h2
      have hij : i ≠ j := by
        rintro rfl
        rw [hget1] at hget2
        exact hne (Option.some.injEq .. ▸ hget2 ▸ rfl)
      subst hr1 hr2
      exact slot_uv_rect_disjoint i j _ _ hij hov

/-- Font oracle that outlines only the reference glyph `'M'`, with a
1 × 1 pixel bounding box. -/
def font_M_only : FontModel :=
  ⟨fun c => if c = 'M' then some (1, 1) else none⟩

/-- The atlas built from `font_M_only`: a single entry for `'M'` at grid
slot 45, cell size 1 × 1. -/
def atlas_M : MonoGlyphAtlas :=
  { glyph_map := atlas_chars.enum.filterMap (fun p =>
      match font_M_only.px_bounds p.2 with
      | none => none
      | some _ => some (p.2, slot_uv_rect p.1 ⌈(1 : ℚ)⌉.toNat ⌈(1 : ℚ)⌉.toNat))
    cell_size := (⌈(1 : ℚ)⌉.toNat, ⌈(1 : ℚ)⌉.toNat) }

/-- C5 witness: the UV specification holds for the concrete atlas built
from `font_M_only`. -/
theorem create_monospace_atlas_uv_witness :
    create_monospace_atlas (some font_M_only) = .ok atlas_M ∧
    atlas_uv_spec atlas_M :=
  ⟨create_monospace_atlas_ok font_M_only (1, 1) rfl,
   create_monospace_atlas_uv font_M_only atlas_M
     (create_monospace_atlas_ok font_M_only (1, 1) rfl)⟩

/-- C9 counterexample: at viewport 2 × 2 the stored projection is not the
correction matrix composed with the orthographic projection whose bottom
plane is 0 and top plane is the height — the code passes `height` as
`cgmath::ortho`'s bottom argument and `0` as its top, flipping Y. -/
theorem build_proj_flip_counterexample :
    Camera.build_proj (2, 2) ≠ correction_spec * ortho_spec 0 2 0 2 0 2 := by
  intro h
  have h11 := congrFun (congrFun h 1) 1
  simp [Camera.build_proj, cgmath_ortho, ortho_spec, correction_spec,
    OPENGL_TO_WGPU_MATRIX, Matrix.mul_apply, Fin.sum_univ_four] at h11
  norm_num at h11

/-- C9 (amended): after construction and after every resize the stored
`view_proj` equals the fixed Z-correction matrix composed with the
orthographic projection with left 0, right `width`, bottom `height`,
top 0 (Y-flipped), near 0, far 2; the resize also rewrites the whole
uniform buffer; consequently the projection maps the screen's top-left
corner `(0, 0)` to NDC `(-1, 1)` (top of clip space, depth 0) and the
bottom-right corner `(width, height)` to NDC `(1, -1)`. -/
theorem build_proj_spec :
    (∀ size : ℕ × ℕ, (Camera.new_from_size size).view_proj =
        correction_spec * ortho_spec 0 (size.1 : ℚ) (size.2 : ℚ) 0 0 2) ∧
    (∀ (c : Camera) (ns : ℕ × ℕ), (c.resize ns).view_proj =
        correction_spec * ortho_spec 0 (ns.1 : ℚ) (ns.2 : ℚ) 0 0 2) ∧
    (∀ (c : Camera) (ns : ℕ × ℕ),
        (c.resize ns).uniform_buffer = (c.resize ns).view_proj) ∧
    (∀ w h : ℕ, 0 < w → 0 < h →
        Matrix.mulVec (Camera.build_proj (w, h)) ![0, 0, 0, 1] =
          ![-1, 1, 0, 1] ∧
        Matrix.mulVec (Camera.build_proj (w, h)) ![(w : ℚ), (h : ℚ), 0, 1] =
          ![1, -1, 0, 1]) := by
  refine ⟨fun size => rfl, fun c ns => rfl, fun c ns => rfl,
    fun w h hw hh => ?_⟩
  have hw' : ((w : ℕ) : ℚ) ≠ 0 := Nat.cast_ne_zero.mpr hw.ne'
  have hh' : ((h : ℕ) : ℚ) ≠ 0 := Nat.cast_ne_zero.mpr hh.ne'
  have hM : Camera.build_proj (w, h) =
      !![2 / (w : ℚ), 0, 0, -1;
         0, -(2 / (h : ℚ)), 0, 1;
         0, 0, -(1 / 2), 0;
         0, 0, 0, 1] := by
    ext i j
    fin_cases i <;> fin_cases j <;>
      simp [Camera.build_proj, cgmath_ortho, OPENGL_TO_WGPU_MATRIX,
        Matrix.mul_apply, Fin.sum_univ_four, Matrix.vecHead, Matrix.vecTail]
    all_goals try field_simp
    all_goals try ring
    all_goals simp [mul_inv_cancel₀ hh']
  constructor
  · rw [hM]
    funext i
    fin_cases i <;>
      simp [Matrix.mulVec, Matrix.dotProduct, Fin.sum_univ_four,
        Matrix.vecHead, Matrix.vecTail]
  · rw [hM]
    funext i
    fin_cases i <;>
      simp [Matrix.mulVec, Matrix.dotProduct, Fin.sum_univ_four,
        Matrix.vecHead, Matrix.vecTail]
    all_goals try field_simp
    all_goals norm_num

/-- C9 witness: the corner-mapping part of the amended claim evaluated at
viewport 2 × 2. -/
theorem build_proj_spec_witness :
    (0 : ℕ) < 2 ∧
    Matrix.mulVec (Camera.build_proj (2, 2)) ![0, 0, 0, 1] = ![-1, 1, 0, 1] ∧
    Matrix.mulVec (Camera.build_proj (2, 2))
      ![((2 : ℕ) : ℚ), ((2 : ℕ) : ℚ), 0, 1] = ![1, -1, 0, 1] :=
  ⟨by decide, (build_proj_spec.2.2.2 2 2 (by decide) (by decide)).1,
   (build_proj_spec.2.2.2 2 2 (by decide) (by decide)).2⟩
